import Mathlib

/-!
Verification of the sapphire ground-particles simulation core.

Shallow embedding of `sapphire/simulations/groundparticles.py` and
`sapphire/clusters.py`.  Dataset coordinates, times and momenta are embedded
as rationals (the Python code works with floats used as exact decimal
literals here); geometry that evaluates trigonometric functions is embedded
over the reals.
-/

set_option allowUnsafeReducibility true

attribute [semireducible] Rat.add Rat.sub Rat.mul Rat.div Rat.inv Rat.neg

namespace Sapphire

/-- One row of the `/groundparticles` dataset: position `x, y`, arrival time
`t`, CORSIKA particle id, and momentum components `p_x, p_y, p_z`. -/
structure Row where
  x : ℚ
  y : ℚ
  t : ℚ
  particle_id : ℕ
  p_x : ℚ
  p_y : ℚ
  p_z : ℚ
deriving DecidableEq

/-- Row-selection predicate of `GroundParticlesSimulation.simulate_detector_response`:
the query string built at groundparticles.py lines 141-144, for a detector with
absolute center `(cx, cy)`.  Note the source interpolates
`(x - b, x + b, y - b, x + b)` into the four position bounds: the upper bound
on `y` is `x + detector_boundary`, not `y + detector_boundary`. -/
def detected_ground (cx cy : ℚ) (r : Row) : Bool :=
  let detector_boundary : ℚ := 3535534 / 10000000
  decide (cx - detector_boundary ≤ r.x) && decide (r.x ≤ cx + detector_boundary) &&
  decide (cy - detector_boundary ≤ r.y) && decide (r.y ≤ cx + detector_boundary) &&
  decide (2 ≤ r.particle_id) && decide (r.particle_id ≤ 6)

/-- Row-selection predicate of `DetectorSignalSimulation.simulate_detector_response`
(groundparticles.py lines 306-314): textually the same query as the square
approximation of `GroundParticlesSimulation`, including the `x + detector_boundary`
upper bound on `y`; this subclass only reads additional momentum columns from
the matched rows. -/
def detected_signal (cx cy : ℚ) (r : Row) : Bool :=
  let detector_boundary : ℚ := 3535534 / 10000000
  decide (cx - detector_boundary ≤ r.x) && decide (r.x ≤ cx + detector_boundary) &&
  decide (cy - detector_boundary ≤ r.y) && decide (r.y ≤ cx + detector_boundary) &&
  decide (2 ≤ r.particle_id) && decide (r.particle_id ≤ 6)

/-- The line expression returned (as a query-string fragment) by
`get_line_boundary_eqs`: either `y - a * x` for slope `a`, or `x` for a
vertical line. -/
inductive LineEq where
  | sloped (a : ℚ)
  | vertical
deriving DecidableEq

/-- Value of a `LineEq` expression at a point, as evaluated by the dataset
query engine on a row with coordinates `(x, y)`. -/
def LineEq.value : LineEq → ℚ → ℚ → ℚ
  | .sloped a, x, y => y - a * x
  | .vertical, x, _ => x

/-- `DetectorBoundarySimulation.get_line_boundary_eqs` (groundparticles.py
lines 241-284): from `p0, p1` on one line and `p2` on the parallel line,
compute the two ordered intercepts and the line expression. -/
def get_line_boundary_eqs (p0 p1 p2 : ℚ × ℚ) : ℚ × LineEq × ℚ :=
  let res : ℚ × LineEq × ℚ :=
    if p0.1 ≠ p1.1 then
      let a := (p1.2 - p0.2) / (p1.1 - p0.1)
      (p0.2 - a * p0.1, LineEq.sloped a, p2.2 - a * p2.1)
    else
      (p0.1, LineEq.vertical, p2.1)
  if res.2.2 < res.1 then (res.2.2, res.2.1, res.1) else res

/-- Row-selection predicate of `DetectorBoundarySimulation.simulate_detector_response`
(groundparticles.py lines 215-227) for a detector with absolute center
`(cx, cy)` and corners `c0, c1, c2, c3` as returned by `Detector.get_corners`.
The pre-filter interpolates `(x - 0.6, x + 0.6, y - 0.6, x + 0.6)`, so the
upper bound on `y` is `x + detector_boundary` here as well. -/
def detected_boundary (cx cy : ℚ) (c0 c1 c2 c3 : ℚ × ℚ) (r : Row) : Bool :=
  let detector_boundary : ℚ := 6 / 10
  let eqs1 := get_line_boundary_eqs c0 c1 c2
  let eqs2 := get_line_boundary_eqs c1 c2 c3
  decide (cx - detector_boundary ≤ r.x) && decide (r.x ≤ cx + detector_boundary) &&
  decide (cy - detector_boundary ≤ r.y) && decide (r.y ≤ cx + detector_boundary) &&
  decide (eqs1.1 < eqs1.2.1.value r.x r.y) && decide (eqs1.2.1.value r.x r.y < eqs1.2.2) &&
  decide (eqs2.1 < eqs2.2.1.value r.x r.y) && decide (eqs2.2.1.value r.x r.y < eqs2.2.2) &&
  decide (2 ≤ r.particle_id) && decide (r.particle_id ≤ 6)

/-- Symmetric axis-aligned box selection as described by the specification:
`cx - b ≤ x ≤ cx + b` and `cy - b ≤ y ≤ cy + b`, with the particle-type
filter.  This is the spec-side reading of the square-approximation query,
to be compared with `detected_ground`. -/
def spec_square_box (cx cy b : ℚ) (r : Row) : Bool :=
  decide (cx - b ≤ r.x) && decide (r.x ≤ cx + b) &&
  decide (cy - b ≤ r.y) && decide (r.y ≤ cy + b) &&
  decide (2 ≤ r.particle_id) && decide (r.particle_id ≤ 6)

/-- Observables returned by `simulate_detector_response` for one detector:
particle count (or weighted signal) `n` and first corrected arrival time `t`. -/
structure DetectorObservables where
  n : ℚ
  t : ℚ
deriving DecidableEq

/-- `GroundParticlesSimulation.simulate_trigger` (groundparticles.py lines
158-171): build the list `[True for observables in detector_observables if
observables.n > 0]`, sum it, and trigger iff the sum is at least 2. -/
def simulate_trigger (detector_observables : List DetectorObservables) : Bool :=
  let detectors_hit :=
    (detector_observables.filter (fun o => decide (0 < o.n))).map (fun _ => true)
  let hit_sum : ℕ := (detectors_hit.map (fun b => if b then (1 : ℕ) else 0)).sum
  decide (2 ≤ hit_sum)

/-- The absolute-timing fields added to the station observables by
`simulate_gps`: `ext_timestamp`, whole-second `timestamp` and `nanoseconds`. -/
structure GpsTimestamp where
  ext_timestamp : ℤ
  timestamp : ℤ
  nanoseconds : ℤ
deriving DecidableEq

/-- Station observables dict before/after the GPS step: per-detector counts
`n1..n4` and arrival times `t1..t4`, plus the optional timing fields (absent
before `simulate_gps` runs, present afterwards when it fires). -/
structure StationObservables where
  n1 : ℚ
  n2 : ℚ
  n3 : ℚ
  n4 : ℚ
  t1 : ℚ
  t2 : ℚ
  t3 : ℚ
  t4 : ℚ
  gps : Option GpsTimestamp
deriving DecidableEq

/-- The `arrival_times` list comprehension of `simulate_gps` (groundparticles.py
lines 176-178): the times `t1..t4` of those detectors whose count `n1..n4` is
positive, in detector order. -/
def arrival_times (o : StationObservables) : List ℚ :=
  (([(o.n1, o.t1), (o.n2, o.t2), (o.n3, o.t3), (o.n4, o.t4)].filter
      (fun p => decide (0 < p.1))).map (fun p => p.2))

/-- Truncation toward zero of a rational, the behaviour of the Python `int()`
conversion applied to a float in `simulate_gps`. -/
def truncQ (q : ℚ) : ℤ := Int.tdiv q.num q.den

/-- `GroundParticlesSimulation.simulate_gps` (groundparticles.py lines
173-193).  The shower ext_timestamp, the per-run station `gps_offset` and the
value drawn from `simulate_gps_uncertainty()` (a collaborator defined outside
this file's sources) are passed as arguments.  Python 2 `/` and `%` on
positive long divisors are floor division and nonnegative remainder, embedded
as `Int.ediv` and `Int.emod` (`/` and `%` on `ℤ`). -/
def simulate_gps (o : StationObservables) (shower_ext_timestamp : ℤ)
    (gps_offset uncertainty : ℚ) : StationObservables :=
  let ts := arrival_times o
  if 1 < ts.length then
    let trigger_time := (ts.insertionSort (· ≤ ·)).getD 1 0
    let ext_timestamp := shower_ext_timestamp + truncQ (trigger_time + gps_offset + uncertainty)
    let timestamp := ext_timestamp / 1000000000
    let nanoseconds := ext_timestamp % 1000000000
    { o with gps := some ⟨ext_timestamp, timestamp, nanoseconds⟩ }
  else o

/-- Number of detectors of a station reporting `n > 0`; the qualifying-detector
count the claims speak about. -/
def num_qualifying (o : StationObservables) : ℕ :=
  ([o.n1, o.n2, o.n3, o.n4].filter (fun n => decide (0 < n))).length

/-- Second-smallest element of a list as the specification defines it: the
entry at index 1 of the list sorted ascending (default 0 for short lists,
which the claims never reach). -/
def second_smallest (l : List ℚ) : ℚ := (l.insertionSort (· ≤ ·)).getD 1 0

/-- Spec-side assembly of the GPS timestamp fields from the shower
ext_timestamp, the gps offset, the uncertainty draw and the trigger time:
`ext = shower_ext + int(trigger + offset + uncertainty)`, split into whole
seconds and nanosecond remainder. -/
def gps_expected (se : ℤ) (go u trigger_time : ℚ) : GpsTimestamp :=
  ⟨se + truncQ (trigger_time + go + u),
   (se + truncQ (trigger_time + go + u)) / 1000000000,
   (se + truncQ (trigger_time + go + u)) % 1000000000⟩

/-- Rounding to the nearest integer, halves away from zero: the behaviour of
the Python 2 `round()` builtin that the specification text ascribes to the
timestamp computation. -/
def round_py (q : ℚ) : ℤ :=
  if 0 ≤ q then Rat.floor (q + 1 / 2) else Rat.ceil (q - 1 / 2)

/-- A HiSPARC detector (clusters.py `Detector`): offset `(x, y)` relative to
the station center and an orientation string.  The constructor stores the
orientation without validating it. -/
structure Det where
  x : ℝ
  y : ℝ
  orientation : String

/-- A HiSPARC station (clusters.py `Station`): offset `(x, y)` relative to the
cluster center, its own rotation `angle`, and its detectors. -/
structure StationGeo where
  x : ℝ
  y : ℝ
  angle : ℝ
  detectors : List Det

/-- A cluster (clusters.py `BaseCluster`): mutable absolute pose
`(_x, _y, _alpha)` and the stored stations with their local offsets. -/
structure ClusterState where
  x : ℝ
  y : ℝ
  alpha : ℝ
  stations : List StationGeo

/-- `Detector.__init__` (clusters.py lines 18-32): plain attribute
assignments, no validation of the orientation, hence no possible error;
embedded into the error monad to state that construction always succeeds. -/
def detector_init (x y : ℝ) (orientation : String) : Except String Det :=
  .ok ⟨x, y, orientation⟩

/-- `BaseCluster.get_xyalpha_coordinates` (clusters.py lines 206-207):
the stored absolute pose of the cluster. -/
def cluster_get_xyalpha (c : ClusterState) : ℝ × ℝ × ℝ := (c.x, c.y, c.alpha)

/-- `Station.get_xyalpha_coordinates` (clusters.py lines 129-146): rotate the
station offset by the cluster rotation, translate by the cluster position,
and add rotation angles. -/
noncomputable def station_get_xyalpha (c : ClusterState) (s : StationGeo) : ℝ × ℝ × ℝ :=
  let X := (cluster_get_xyalpha c).1
  let Y := (cluster_get_xyalpha c).2.1
  let alpha := (cluster_get_xyalpha c).2.2
  let xp := s.x * Real.cos alpha - s.y * Real.sin alpha
  let yp := s.x * Real.sin alpha + s.y * Real.cos alpha
  (X + xp, Y + yp, alpha + s.angle)

/-- `Detector.get_xy_coordinates` (clusters.py lines 41-48): rotate the
detector offset by the absolute station rotation and translate by the
absolute station position. -/
noncomputable def detector_get_xy (c : ClusterState) (s : StationGeo) (d : Det) : ℝ × ℝ :=
  let X := (station_get_xyalpha c s).1
  let Y := (station_get_xyalpha c s).2.1
  let alpha := (station_get_xyalpha c s).2.2
  let sina := Real.sin alpha
  let cosa := Real.cos alpha
  (X + (d.x * cosa - d.y * sina), Y + (d.x * sina + d.y * cosa))

/-- `Detector.get_corners` (clusters.py lines 50-81): local corners from the
orientation dispatch (raising for an unknown orientation), then rotation by
the absolute station angle and translation by the absolute station position.
The detector size is the class constant `(0.5, 1.0)`. -/
noncomputable def detector_get_corners (c : ClusterState) (s : StationGeo) (d : Det) :
    Except String (List (ℝ × ℝ)) :=
  let X := (station_get_xyalpha c s).1
  let Y := (station_get_xyalpha c s).2.1
  let alpha := (station_get_xyalpha c s).2.2
  let dx := (0.5 : ℝ) / 2
  let dy := (1.0 : ℝ) / 2
  let corners : Except String (List (ℝ × ℝ)) :=
    if d.orientation = "UD" then
      .ok [(d.x - dx, d.y - dy), (d.x + dx, d.y - dy),
           (d.x + dx, d.y + dy), (d.x - dx, d.y + dy)]
    else if d.orientation = "LR" then
      .ok [(d.x - dy, d.y - dx), (d.x + dy, d.y - dx),
           (d.x + dy, d.y + dx), (d.x - dy, d.y + dx)]
    else
      .error ("Unknown detector orientation: " ++ d.orientation)
  corners.map (fun cs =>
    (cs.map (fun p =>
      (p.1 * Real.cos alpha - p.2 * Real.sin alpha,
       p.1 * Real.sin alpha + p.2 * Real.cos alpha))).map
      (fun p => (X + p.1, Y + p.2)))

/-- Modelled from the spec: `BaseCluster.set_coordinates(x, y, z, alpha)` is
called by `_prepare_cluster_for_shower`, but the clusters.py in these sources
only defines the 2D setter `set_xyalpha_coordinates` (lines 214-215); per the
spec the call sets the cluster absolute pose, the `z` component having no
counterpart in the stored 2D pose.  Station and detector offsets are not
touched. -/
def set_coordinates (c : ClusterState) (x y _z alpha : ℝ) : ClusterState :=
  { c with x := x, y := y, alpha := alpha }

/-- `GroundParticlesSimulation._prepare_cluster_for_shower` (groundparticles.py
lines 109-121): rotate the core position `(x, y)` by `-alpha` and set the
cluster pose to the negated result with rotation `-alpha`. -/
noncomputable def prepare_cluster_for_shower (c : ClusterState) (x y alpha : ℝ) : ClusterState :=
  let xp := x * Real.cos (-alpha) - y * Real.sin (-alpha)
  let yp := x * Real.sin (-alpha) + y * Real.cos (-alpha)
  set_coordinates c (-xp) (-yp) 0 (-alpha)

/-- Rotation of a 2D vector by an angle, the spec-side building block of the
coordinate composition rule. -/
noncomputable def rot (theta : ℝ) (p : ℝ × ℝ) : ℝ × ℝ :=
  (p.1 * Real.cos theta - p.2 * Real.sin theta,
   p.1 * Real.sin theta + p.2 * Real.cos theta)

/-- Spec-side pose composition: child absolute pose = parent position plus the
child offset rotated by the parent absolute rotation, with angles summed. -/
noncomputable def compose_pose (parent : ℝ × ℝ × ℝ) (offset : ℝ × ℝ) (angle : ℝ) : ℝ × ℝ × ℝ :=
  (parent.1 + (rot parent.2.2 offset).1,
   parent.2.1 + (rot parent.2.2 offset).2,
   parent.2.2 + angle)

/-- Image of a cluster-local point under the cluster pose: rotate by the
cluster rotation and translate by the cluster position. -/
noncomputable def cluster_to_global (c : ClusterState) (p : ℝ × ℝ) : ℝ × ℝ :=
  (c.x + (rot c.alpha p).1, c.y + (rot c.alpha p).2)

/-- Azimuth normalization of `generate_shower_parameters` (groundparticles.py
lines 95-99): add the generated `alpha` to the CORSIKA event-header azimuth
and wrap once by `±2π` into `(-π, π]`. -/
noncomputable def shower_azimuth (alpha source_azimuth : ℝ) : ℝ :=
  let s := alpha + source_azimuth
  if Real.pi < s then s - 2 * Real.pi
  else if s ≤ -Real.pi then s + 2 * Real.pi
  else s

/-- The qualifying-detector count equals the length of the `arrival_times`
list built by `simulate_gps`. -/
theorem num_qualifying_eq_length (o : StationObservables) :
    num_qualifying o = (arrival_times o).length := by
  simp only [num_qualifying, arrival_times, List.length_map]
  by_cases h1 : (0 : ℚ) < o.n1 <;> by_cases h2 : (0 : ℚ) < o.n2 <;>
    by_cases h3 : (0 : ℚ) < o.n3 <;> by_cases h4 : (0 : ℚ) < o.n4 <;>
    simp [List.filter, h1, h2, h3, h4]

/-- Summing the all-`true` hit list of `simulate_trigger` counts the detectors
with a positive particle count. -/
theorem hit_sum_eq_countP (l : List DetectorObservables) :
    (((l.filter (fun o => decide (0 < o.n))).map (fun _ => true)).map
      (fun b => if b then (1 : ℕ) else 0)).sum
      = l.countP (fun o => decide (0 < o.n)) := by
  induction l with
  | nil => rfl
  | cons a t ih =>
    by_cases h : (0 : ℚ) < a.n <;>
      simp [List.filter_cons, List.countP_cons, List.countP_eq_length_filter,
        h, ih, Nat.add_comm]

/-- C1: the claim reads the square-approximation query as the symmetric box
`x - b ≤ px ≤ x + b`, `y - b ≤ py ≤ y + b` with `b = 0.3535534`, and the same
symmetric pre-filter in the other two strategies.  The code interpolates
`x + detector_boundary` as the upper bound on `py` in all three queries, so a
particle at the center of a detector whose `y` exceeds its `x` by more than
the boundary is rejected by all three strategies while the symmetric box of
the claim (and of the code docstrings) contains it.  Evaluation at detector
center `(0, 10)` and a matching particle row at `(0, 10)`. -/
theorem C1_asymmetric_box_defect :
    spec_square_box 0 10 (3535534 / 10000000) ⟨0, 10, 0, 3, 0, 0, 0⟩ = true ∧
    detected_ground 0 10 ⟨0, 10, 0, 3, 0, 0, 0⟩ = false ∧
    detected_signal 0 10 ⟨0, 10, 0, 3, 0, 0, 0⟩ = false ∧
    detected_boundary 0 10 (-1/4, 19/2) (1/4, 19/2) (1/4, 21/2) (-1/4, 21/2)
      ⟨0, 10, 0, 3, 0, 0, 0⟩ = false := by
  decide

/-- C2, counterexample: a dataset row with `particle_id = 4` lying at the
detector center is selected by all three strategies, because every query
filters with `2 ≤ particle_id ≤ 6`, a range that contains 4. -/
theorem C2_particle_id_4_selected :
    (⟨0, 0, 0, 4, 0, 0, 0⟩ : Row).particle_id = 4 ∧
    detected_ground 0 0 ⟨0, 0, 0, 4, 0, 0, 0⟩ = true ∧
    detected_signal 0 0 ⟨0, 0, 0, 4, 0, 0, 0⟩ = true ∧
    detected_boundary 0 0 (-1/4, -1/2) (1/4, -1/2) (1/4, 1/2) (-1/4, 1/2)
      ⟨0, 0, 0, 4, 0, 0, 0⟩ = true := by
  decide

/-- C2, amended: every row selected by any of the three strategies has
`particle_id` in the closed range `[2, 6]`; ids outside the range, such as
gammas (1) and hadrons (> 6), are never selected, but id 4 (unused in the
data per the source comment) is inside the range. -/
theorem C2_selected_implies_id_in_range (cx cy : ℚ) (c0 c1 c2 c3 : ℚ × ℚ) (r : Row)
    (h : detected_ground cx cy r = true ∨ detected_signal cx cy r = true ∨
      detected_boundary cx cy c0 c1 c2 c3 r = true) :
    2 ≤ r.particle_id ∧ r.particle_id ≤ 6 := by
  rcases h with h | h | h <;>
  · simp only [detected_ground, detected_signal, detected_boundary,
      Bool.and_eq_true, decide_eq_true_eq] at h
    exact ⟨h.1.2, h.2⟩

/-- C2, witness for the amended theorem at a concrete selected row. -/
theorem C2_selected_implies_id_in_range_witness :
    detected_ground 0 0 ⟨0, 0, 0, 3, 0, 0, 0⟩ = true ∧
    (2 ≤ (⟨0, 0, 0, 3, 0, 0, 0⟩ : Row).particle_id ∧
      (⟨0, 0, 0, 3, 0, 0, 0⟩ : Row).particle_id ≤ 6) :=
  ⟨by decide,
   C2_selected_implies_id_in_range 0 0 (0, 0) (0, 0) (0, 0) (0, 0)
     ⟨0, 0, 0, 3, 0, 0, 0⟩ (Or.inl (by decide))⟩

/-- C3, counterexample: for the axis-aligned unit detector (station pose 0,
detector offset `(0, 0)`, orientation UD, corners `(±0.25, ±0.5)`), the row at
`(0.3, 0)` is selected by `DetectorSignalSimulation` (square query, half-width
0.3535534) but rejected by the rotated-polygon query of
`DetectorBoundarySimulation`, so the two selections are not identical. -/
theorem C3_signal_selection_differs_from_boundary :
    detector_get_corners ⟨0, 0, 0, []⟩ ⟨0, 0, 0, []⟩ ⟨0, 0, "UD"⟩ =
      .ok [((-0.25 : ℝ), -0.5), (0.25, -0.5), (0.25, 0.5), (-0.25, 0.5)] ∧
    detected_signal 0 0 ⟨3/10, 0, 0, 3, 0, 0, 0⟩ = true ∧
    detected_boundary 0 0 (-1/4, -1/2) (1/4, -1/2) (1/4, 1/2) (-1/4, 1/2)
      ⟨3/10, 0, 0, 3, 0, 0, 0⟩ = false := by
  refine ⟨?_, by decide, by decide⟩
  rw [detector_get_corners]
  rw [if_pos rfl]
  simp [station_get_xyalpha, cluster_get_xyalpha, Except.map]
  norm_num

/-- C3, amended: the row selection of `DetectorSignalSimulation` is exactly
the square-approximation selection of `GroundParticlesSimulation` (same query
text, same half-width 0.3535534, same asymmetric bound), not the
rotated-polygon selection of `DetectorBoundarySimulation`; the signal variant
differs from the square variant only in converting the matched momenta into
the weighted value reported as `n`. -/
theorem C3_signal_selection_eq_square (cx cy : ℚ) (r : Row) :
    detected_signal cx cy r = detected_ground cx cy r := rfl

/-- C4: if fewer than 2 detectors report `n > 0`, `simulate_gps` returns the
station observables unchanged with no timestamp fields added; with at least 2,
it adds the timestamp fields, the trigger time being the second-smallest
qualifying arrival time (ascending sort, index 1). -/
theorem C4_gps_second_smallest_or_no_op (o : StationObservables) (se : ℤ) (go u : ℚ) :
    (num_qualifying o < 2 → simulate_gps o se go u = o) ∧
    (2 ≤ num_qualifying o →
      simulate_gps o se go u =
        { o with gps := some (gps_expected se go u (second_smallest (arrival_times o))) }) := by
  have hlen := num_qualifying_eq_length o
  constructor
  · intro h
    simp only [simulate_gps]
    rw [if_neg (by omega)]
  · intro h
    simp only [simulate_gps]
    rw [if_pos (by omega)]
    rfl

/-- C4, witness: the literal spec scenario `t1 = 3.0, t2 = 5.0, t3 = t4 =
-999` with `n1 = n2 = 1`, `n3 = n4 = 0` produces trigger time 5.0. -/
theorem C4_gps_second_smallest_or_no_op_witness :
    2 ≤ num_qualifying ⟨1, 1, 0, 0, 3, 5, -999, -999, none⟩ ∧
    simulate_gps ⟨1, 1, 0, 0, 3, 5, -999, -999, none⟩ 0 0 0 =
      ⟨1, 1, 0, 0, 3, 5, -999, -999, some ⟨5, 0, 5⟩⟩ :=
  ⟨by decide, by
    have h := (C4_gps_second_smallest_or_no_op ⟨1, 1, 0, 0, 3, 5, -999, -999, none⟩ 0 0 0).2
      (by decide)
    exact h.trans (by decide)⟩

/-- C5: `simulate_trigger` returns `true` iff at least 2 detectors report a
positive particle count, whichever detectors they are. -/
theorem C5_trigger_iff_two_hits (l : List DetectorObservables) :
    simulate_trigger l = true ↔ 2 ≤ l.countP (fun o => decide (0 < o.n)) := by
  simp only [simulate_trigger, decide_eq_true_eq]
  rw [hit_sum_eq_countP]

/-- C6, counterexample: constructing a detector with the unknown orientation
"XY" succeeds (the constructor stores the value without validation and cannot
raise), and the "Unknown detector orientation" error is raised only later,
when the geometry query `get_corners` is made — not immediately at geometry
construction as the claim states. -/
theorem C6_orientation_error_is_lazy :
    detector_init 0 0 "XY" = .ok ⟨0, 0, "XY"⟩ ∧
    detector_get_corners ⟨0, 0, 0, []⟩ ⟨0, 0, 0, []⟩ ⟨0, 0, "XY"⟩ =
      .error "Unknown detector orientation: XY" := by
  constructor
  · rfl
  · rw [detector_get_corners]
    rw [if_neg (by decide), if_neg (by decide)]
    rfl

/-- C6, amended: an orientation other than "UD" and "LR" is accepted silently
at construction; the error is raised lazily by `get_corners`, which fails for
every such orientation rather than defaulting to either enumerated value. -/
theorem C6_unknown_orientation_raises_at_query (c : ClusterState) (s : StationGeo) (d : Det)
    (h1 : d.orientation ≠ "UD") (h2 : d.orientation ≠ "LR") :
    detector_init d.x d.y d.orientation = .ok d ∧
    detector_get_corners c s d =
      .error ("Unknown detector orientation: " ++ d.orientation) := by
  constructor
  · rfl
  · rw [detector_get_corners]
    rw [if_neg h1, if_neg h2]
    rfl

/-- C6, witness for the amended theorem at the concrete orientation "XY". -/
theorem C6_unknown_orientation_raises_at_query_witness :
    (("XY" : String) ≠ "UD") ∧ (("XY" : String) ≠ "LR") ∧
    detector_init 0 0 "XY" = .ok ⟨0, 0, "XY"⟩ ∧
    detector_get_corners ⟨0, 0, 0, []⟩ ⟨0, 0, 0, []⟩ ⟨0, 0, "XY"⟩ =
      .error ("Unknown detector orientation: " ++ "XY") :=
  ⟨by decide, by decide,
   (C6_unknown_orientation_raises_at_query ⟨0, 0, 0, []⟩ ⟨0, 0, 0, []⟩ ⟨0, 0, "XY"⟩
     (by decide) (by decide)).1,
   (C6_unknown_orientation_raises_at_query ⟨0, 0, 0, []⟩ ⟨0, 0, 0, []⟩ ⟨0, 0, "XY"⟩
     (by decide) (by decide)).2⟩

/-- C7, counterexample: with qualifying times 3 and 5.7 (offset and
uncertainty 0) the code adds `int(5.7) = 5` to the shower ext_timestamp,
whereas the claim formula `round(5.7) = 6` would give a different
ext_timestamp: the conversion truncates, it does not round. -/
theorem C7_int_truncates_not_rounds :
    (simulate_gps ⟨1, 1, 0, 0, 3, 57/10, -999, -999, none⟩ 1000000000 0 0).gps =
      some ⟨1000000005, 1, 5⟩ ∧
    round_py (second_smallest (arrival_times ⟨1, 1, 0, 0, 3, 57/10, -999, -999, none⟩) + 0 + 0)
      = 6 ∧
    (1000000005 : ℤ) ≠ 1000000000 + 6 := by
  refine ⟨by decide, by decide, by decide⟩

/-- C7, amended: when at least 2 detectors qualify, the ext_timestamp is the
shower ext_timestamp plus the Python `int(...)` truncation (not rounding) of
`trigger_time + gps_offset + uncertainty`, and it is split as
`timestamp = ext // 1e9`, `nanoseconds = ext % 1e9`, so that
`timestamp * 1e9 + nanoseconds = ext_timestamp` holds in exact integer
arithmetic. -/
theorem C7_ext_timestamp_trunc_and_split (o : StationObservables) (se : ℤ) (go u : ℚ)
    (h : 2 ≤ num_qualifying o) :
    (simulate_gps o se go u).gps =
      some (gps_expected se go u (second_smallest (arrival_times o))) ∧
    (gps_expected se go u (second_smallest (arrival_times o))).timestamp * 1000000000 +
      (gps_expected se go u (second_smallest (arrival_times o))).nanoseconds =
      (gps_expected se go u (second_smallest (arrival_times o))).ext_timestamp := by
  have hlen := num_qualifying_eq_length o
  constructor
  · simp only [simulate_gps]
    rw [if_pos (by omega)]
    rfl
  · have hdm := Int.ediv_add_emod
      (se + truncQ (second_smallest (arrival_times o) + go + u)) 1000000000
    simp only [gps_expected]
    omega

/-- C7, witness for the amended theorem at the 3 / 5.7 scenario. -/
theorem C7_ext_timestamp_trunc_and_split_witness :
    2 ≤ num_qualifying ⟨1, 1, 0, 0, 3, 57/10, -999, -999, none⟩ ∧
    (simulate_gps ⟨1, 1, 0, 0, 3, 57/10, -999, -999, none⟩ 1000000000 0 0).gps =
      some ⟨1000000005, 1, 5⟩ ∧
    (1 : ℤ) * 1000000000 + 5 = 1000000005 :=
  ⟨by decide, by
    have h := (C7_ext_timestamp_trunc_and_split ⟨1, 1, 0, 0, 3, 57/10, -999, -999, none⟩
      1000000000 0 0 (by decide)).1
    exact h.trans (by decide), by decide⟩

/-- C8: for generated `alpha` and source azimuth each in `[-π, π]` (the ranges
drawn by `generate_shower_parameters` and delivered by the event header), the
single `±2π` correction step places `shower_azimuth` in `(-π, π]`, including
the boundary combinations `alpha = source = π` and `alpha = source = -π`. -/
theorem C8_shower_azimuth_in_range (a s : ℝ)
    (h1 : -Real.pi ≤ a) (h2 : a ≤ Real.pi) (h3 : -Real.pi ≤ s) (h4 : s ≤ Real.pi) :
    -Real.pi < shower_azimuth a s ∧ shower_azimuth a s ≤ Real.pi := by
  have hpi := Real.pi_pos
  simp only [shower_azimuth]
  split_ifs with hgt hle <;> constructor <;> linarith

/-- C8, witness at the boundary case `alpha = π`, `source_azimuth = π`. -/
theorem C8_shower_azimuth_in_range_witness :
    (-Real.pi ≤ Real.pi ∧ Real.pi ≤ Real.pi) ∧
    (-Real.pi < shower_azimuth Real.pi Real.pi ∧ shower_azimuth Real.pi Real.pi ≤ Real.pi) :=
  ⟨⟨neg_le_self Real.pi_pos.le, le_refl Real.pi⟩,
   C8_shower_azimuth_in_range Real.pi Real.pi (neg_le_self Real.pi_pos.le) (le_refl Real.pi)
     (neg_le_self Real.pi_pos.le) (le_refl Real.pi)⟩

/-- C9: the absolute station pose is the cluster pose composed once with the
station offset and angle (offset rotated by the cluster rotation, angles
summed), and the absolute detector center is the absolute station position
plus the detector offset rotated by the absolute station rotation — the
composition rule applied exactly once per level Detector→Station→Cluster. -/
theorem C9_pose_composition (c : ClusterState) (s : StationGeo) (d : Det) :
    station_get_xyalpha c s = compose_pose (cluster_get_xyalpha c) (s.x, s.y) s.angle ∧
    detector_get_xy c s d =
      ((compose_pose (station_get_xyalpha c s) (d.x, d.y) 0).1,
       (compose_pose (station_get_xyalpha c s) (d.x, d.y) 0).2.1) :=
  ⟨rfl, rfl⟩

/-- C10: `_prepare_cluster_for_shower` sets the cluster pose to
`(-x', -y', -alpha)` where `(x', y')` is the core offset rotated by `-alpha`,
leaves the stored stations (and their detectors) untouched, and maps the
cluster-local core position `(x, y)` to the global origin of the re-posed
geometry. -/
theorem C10_prepare_cluster_re_pose (c : ClusterState) (x y alpha : ℝ) :
    (prepare_cluster_for_shower c x y alpha).x = -((rot (-alpha) (x, y)).1) ∧
    (prepare_cluster_for_shower c x y alpha).y = -((rot (-alpha) (x, y)).2) ∧
    (prepare_cluster_for_shower c x y alpha).alpha = -alpha ∧
    (prepare_cluster_for_shower c x y alpha).stations = c.stations ∧
    cluster_to_global (prepare_cluster_for_shower c x y alpha) (x, y) = (0, 0) := by
  refine ⟨rfl, rfl, rfl, rfl, ?_⟩
  simp only [cluster_to_global, prepare_cluster_for_shower, set_coordinates, rot,
    Prod.mk.injEq]
  constructor <;> ring

end Sapphire

